import Mathlib

/-!
Shallow embedding of the credit-request lifecycle service
(`services/creditRequest/creditRequestLogic.ts` and its type module
`creditRequestTypes.ts`).

Conventions of the embedding:
* TypeScript `number` amounts (decimals) become `ℚ`; identifiers become
  `Nat`/`Int` (`idClient` is `Int` because the code compares it with `<= 0`);
  ISO-8601 timestamp strings, which the code only ever compares through
  `new Date(...).getTime()`, become epoch milliseconds (`Int`).
* Throwing functions return `Except String α` paired with the post-call store;
  the error payloads are the exact message strings thrown by the code.
* The module-level mutable state (`creditRequests`, `nextId`,
  `requestSequence`) becomes an explicit `Store` value threaded through the
  operations; `new Date()` becomes an explicit `now` argument.
-/

set_option autoImplicit false

namespace CreditSystem

/-- `RequestStatus` enum of `creditRequestTypes.ts`. -/
inductive RequestStatus where
  | Rascunho
  | AguardandoDocumentacao
  | EmAnalise
  | Aprovado
  | Reprovado
  | Cancelado
  | Efetivada
  deriving DecidableEq, Repr

/-- `PurposeCategory` enum of `creditRequestTypes.ts`. -/
inductive PurposeCategory where
  | CONSUMO
  | INVESTIMENTO
  | IMOVEL
  | VEICULO
  deriving DecidableEq, Repr

/-- `PaymentTerm` enum of `creditRequestTypes.ts`. -/
inductive PaymentTerm where
  | UpTo6Months
  | From6To12Months
  | From13To24Months
  | From25To48Months
  | From49To60Months
  deriving DecidableEq, Repr

/-- `PaymentMethod` enum of `creditRequestTypes.ts`. -/
inductive PaymentMethod where
  | Boleto
  | CreditCard
  | AutomaticDebit
  deriving DecidableEq, Repr

/-- `ProfessionalSituation` enum of `creditRequestTypes.ts`. -/
inductive ProfessionalSituation where
  | CLT
  | Autonomo
  | Empresario
  | Aposentado
  | FuncionarioPublico
  | Pensionista
  | Estudante
  | Desempregado
  deriving DecidableEq, Repr

/-- Entry of the `documents` array of `CreditRequestEntity`. -/
structure DocumentRecord where
  id : Nat
  name : String
  uploadDate : String
  deriving DecidableEq, Repr

/-- The `approvedConditions` object stored by `creditRequestApprove`. -/
structure ApprovedConditions where
  approvedAmount : ℚ
  interestRate : ℚ
  finalTerm : Nat
  installmentValue : ℚ
  deriving DecidableEq, Repr

/-- `CreditRequestEntity` of `creditRequestTypes.ts`.  Optional fields of the
TypeScript interface become `Option`s; the three lock fields mirror
`lockStatus` / `lockedBy` / `lockTimestamp`. -/
structure CreditRequestEntity where
  idCreditRequest : Nat
  idClient : Int
  requestNumber : String
  creditAmount : ℚ
  purposeCategory : PurposeCategory
  purposeSubcategory : String
  paymentTerm : PaymentTerm
  paymentMethod : PaymentMethod
  monthlyIncome : ℚ
  committedIncome : ℚ
  professionalSituation : ProfessionalSituation
  bankCode : String
  branchNumber : String
  accountNumber : String
  requestDate : Int
  status : RequestStatus
  rejectionReason : Option String
  approvedConditions : Option ApprovedConditions
  documents : List DocumentRecord
  correctionInstructions : Option String
  documentsToCorrect : Option (List Nat)
  lockStatus : Bool
  lockedBy : Option Int
  lockTimestamp : Option Int
  analysisCompletionDate : Option Int
  deriving DecidableEq, Repr

/-- The module-level mutable state of `creditRequestLogic.ts`:
`creditRequests`, `nextId` and `requestSequence`. -/
structure Store where
  creditRequests : List CreditRequestEntity
  nextId : Nat
  requestSequence : Nat
  deriving Repr

/-- Initial module state: empty array, both counters start at 1. -/
def Store.empty : Store :=
  { creditRequests := [], nextId := 1, requestSequence := 1 }

/-- `CreditRequestCreateRequest` of `creditRequestTypes.ts`. -/
structure CreditRequestCreateRequest where
  idClient : Int
  creditAmount : ℚ
  purposeCategory : PurposeCategory
  purposeSubcategory : String
  paymentTerm : PaymentTerm
  paymentMethod : PaymentMethod
  monthlyIncome : ℚ
  committedIncome : ℚ
  professionalSituation : ProfessionalSituation
  bankCode : String
  branchNumber : String
  accountNumber : String
  deriving DecidableEq, Repr

/-- `CreditRequestCreateResponse` of `creditRequestTypes.ts`. -/
structure CreditRequestCreateResponse where
  idCreditRequest : Nat
  requestNumber : String
  deriving DecidableEq, Repr

/-- `String.prototype.padStart(5, '0')` on the decimal print of the
sequence counter. -/
def padStart5 (s : String) : String :=
  String.mk (List.replicate (5 - s.length) '0') ++ s

/-- `generateRequestNumber`: builds `CR-<datestr>-<seq padded to 5>`.
The `YYYYMMDD` date string is an argument (it comes from the wall clock),
the sequence number is the store's `requestSequence` counter. -/
def generateRequestNumber (dateStr : String) (seq : Nat) : String :=
  "CR-" ++ dateStr ++ "-" ++ padStart5 (toString seq)

/-- The `validSubcategories` record of `validateSubcategory`. -/
def validSubcategories : PurposeCategory → List String
  | PurposeCategory.CONSUMO =>
      ["Pagamento de dívidas", "Despesas pessoais/familiares",
       "Emergência médica", "Viagem/Lazer", "Eletrodomésticos/Móveis"]
  | PurposeCategory.INVESTIMENTO =>
      ["Negócio próprio", "Educação/Cursos", "Reforma/Construção",
       "Equipamentos profissionais", "Capital de giro"]
  | PurposeCategory.IMOVEL =>
      ["Compra de imóvel residencial", "Compra de imóvel comercial",
       "Reforma/Ampliação", "Entrada/Sinal", "Quitação de financiamento"]
  | PurposeCategory.VEICULO =>
      ["Compra de carro", "Compra de moto", "Veículo comercial/trabalho",
       "Entrada/Sinal", "Quitação de financiamento"]

/-- `validateSubcategory(category, subcategory)`. -/
def validateSubcategory (category : PurposeCategory) (subcategory : String) : Bool :=
  (validSubcategories category).contains subcategory

/-- `calculateSLA(waitTimeMinutes)`: SLA color band. -/
def calculateSLA (waitTimeMinutes : Int) : String :=
  if waitTimeMinutes ≤ 30 then "Green"
  else if waitTimeMinutes ≤ 42 then "Yellow"
  else if waitTimeMinutes ≤ 51 then "Orange"
  else if waitTimeMinutes ≤ 60 then "Red"
  else "Black"

/-- `calculatePriority(waitTimeMinutes, amount)`. -/
def calculatePriority (waitTimeMinutes : Int) (amount : ℚ) : ℚ :=
  if waitTimeMinutes < 30 then amount else 1000000

/-- `calculateInstallment(amount, rate, months)`: PMT amortization formula,
read with exact rational arithmetic in place of IEEE doubles. -/
def calculateInstallment (amount rate : ℚ) (months : Nat) : ℚ :=
  if rate = 0 then amount / months
  else
    let i := rate / 100
    (amount * i * (1 + i) ^ months) / ((1 + i) ^ months - 1)

/-- `creditRequestCreate(params)`.  `dateStr` and `now` stand for the wall
clock reads (`new Date()`); the result pairs the response (or thrown error
message) with the post-call store. -/
def creditRequestCreate (params : CreditRequestCreateRequest) (dateStr : String)
    (now : Int) (s : Store) : Except String CreditRequestCreateResponse × Store :=
  if params.idClient ≤ 0 then
    (Except.error "clientNotFound", s)
  else if params.committedIncome > params.monthlyIncome then
    (Except.error "committedIncomeExceedsMonthlyIncome", s)
  else if ¬ validateSubcategory params.purposeCategory params.purposeSubcategory then
    (Except.error "purposeSubcategoryInvalid", s)
  else
    let requestNumber := generateRequestNumber dateStr s.requestSequence
    let idCreditRequest := s.nextId
    let creditRequest : CreditRequestEntity :=
      { idCreditRequest := idCreditRequest
        idClient := params.idClient
        requestNumber := requestNumber
        creditAmount := params.creditAmount
        purposeCategory := params.purposeCategory
        purposeSubcategory := params.purposeSubcategory
        paymentTerm := params.paymentTerm
        paymentMethod := params.paymentMethod
        monthlyIncome := params.monthlyIncome
        committedIncome := params.committedIncome
        professionalSituation := params.professionalSituation
        bankCode := params.bankCode
        branchNumber := params.branchNumber
        accountNumber := params.accountNumber
        requestDate := now
        status := RequestStatus.AguardandoDocumentacao
        rejectionReason := none
        approvedConditions := none
        documents := []
        correctionInstructions := none
        documentsToCorrect := none
        lockStatus := false
        lockedBy := none
        lockTimestamp := none
        analysisCompletionDate := none }
    (Except.ok { idCreditRequest := idCreditRequest, requestNumber := requestNumber },
     { creditRequests := s.creditRequests ++ [creditRequest]
       nextId := s.nextId + 1
       requestSequence := s.requestSequence + 1 })

/-- Rewrites the first element satisfying `p` (the record the code mutates
in place after `creditRequests.find(...)`); everything else is untouched. -/
def updateFirst {α : Type} (p : α → Bool) (f : α → α) : List α → List α
  | [] => []
  | x :: xs => if p x then f x :: xs else x :: updateFirst p f xs

/-- The array-element predicate of `creditRequests.find((req) => req.idCreditRequest === id)`. -/
def byId (idCreditRequest : Nat) (req : CreditRequestEntity) : Bool :=
  req.idCreditRequest == idCreditRequest

/-- The `cancellableStatuses` list of `creditRequestCancel`. -/
def cancellableStatuses : List RequestStatus :=
  [RequestStatus.Rascunho, RequestStatus.AguardandoDocumentacao, RequestStatus.EmAnalise]

/-- `creditRequestCancel(idClient, idCreditRequest)`. -/
def creditRequestCancel (idClient : Int) (idCreditRequest : Nat) (s : Store) :
    Except String Bool × Store :=
  match s.creditRequests.find? (byId idCreditRequest) with
  | none => (Except.error "requestNotFound", s)
  | some request =>
    if request.idClient ≠ idClient then
      (Except.error "requestNotFound", s)
    else if ¬ cancellableStatuses.contains request.status then
      (Except.error "requestCannotBeCancelled", s)
    else
      (Except.ok true,
       { s with creditRequests :=
           (updateFirst (byId idCreditRequest)
             (fun req => { req with status := RequestStatus.Cancelado })
             s.creditRequests) })

/-- `lockCreditRequest(idCreditRequest, analystId)`; `now` is the
`new Date()` stamped into `lockTimestamp`. -/
def lockCreditRequest (idCreditRequest : Nat) (analystId : Int) (now : Int)
    (s : Store) : Except String Unit × Store :=
  match s.creditRequests.find? (byId idCreditRequest) with
  | none => (Except.error "requestNotFound", s)
  | some request =>
    if request.lockStatus = true ∧ request.lockedBy ≠ some analystId then
      (Except.error "proposalAlreadyLocked", s)
    else
      (Except.ok (),
       { s with creditRequests :=
           (updateFirst (byId idCreditRequest)
             (fun req => { req with
                 lockStatus := true
                 lockedBy := some analystId
                 lockTimestamp := some now })
             s.creditRequests) })

/-- `CreditRequestApproveParams` of `creditRequestTypes.ts`. -/
structure CreditRequestApproveParams where
  idCreditRequest : Nat
  analystId : Int
  approvedAmount : ℚ
  interestRate : ℚ
  finalTerm : Nat
  deriving DecidableEq, Repr

/-- `CreditRequestRejectParams` of `creditRequestTypes.ts`. -/
structure CreditRequestRejectParams where
  idCreditRequest : Nat
  analystId : Int
  rejectionReason : String
  deriving DecidableEq, Repr

/-- `CreditRequestReturnParams` of `creditRequestTypes.ts`. -/
structure CreditRequestReturnParams where
  idCreditRequest : Nat
  analystId : Int
  documentsToCorrect : List Nat
  correctionInstructions : String
  deriving DecidableEq, Repr

/-- `creditRequestApprove(params)`; `now` is the `new Date()` stamped into
`analysisCompletionDate`. -/
def creditRequestApprove (params : CreditRequestApproveParams) (now : Int)
    (s : Store) : Except String Unit × Store :=
  match s.creditRequests.find? (byId params.idCreditRequest) with
  | none => (Except.error "requestNotFound", s)
  | some request =>
    if request.lockedBy ≠ some params.analystId then
      (Except.error "proposalNotLockedByAnalyst", s)
    else if request.status ≠ RequestStatus.EmAnalise then
      (Except.error "invalidStatusForApproval", s)
    else if params.approvedAmount > request.creditAmount then
      (Except.error "approvedAmountExceedsRequested", s)
    else
      let installmentValue :=
        calculateInstallment params.approvedAmount params.interestRate params.finalTerm
      (Except.ok (),
       { s with creditRequests :=
           (updateFirst (byId params.idCreditRequest)
             (fun req => { req with
                 status := RequestStatus.Aprovado
                 approvedConditions := some
                   { approvedAmount := params.approvedAmount
                     interestRate := params.interestRate
                     finalTerm := params.finalTerm
                     installmentValue := installmentValue }
                 analysisCompletionDate := some now
                 lockStatus := false
                 lockedBy := none
                 lockTimestamp := none })
             s.creditRequests) })

/-- `creditRequestReject(params)`. -/
def creditRequestReject (params : CreditRequestRejectParams) (now : Int)
    (s : Store) : Except String Unit × Store :=
  match s.creditRequests.find? (byId params.idCreditRequest) with
  | none => (Except.error "requestNotFound", s)
  | some request =>
    if request.lockedBy ≠ some params.analystId then
      (Except.error "proposalNotLockedByAnalyst", s)
    else if request.status ≠ RequestStatus.EmAnalise then
      (Except.error "invalidStatusForRejection", s)
    else
      (Except.ok (),
       { s with creditRequests :=
           (updateFirst (byId params.idCreditRequest)
             (fun req => { req with
                 status := RequestStatus.Reprovado
                 rejectionReason := some params.rejectionReason
                 analysisCompletionDate := some now
                 lockStatus := false
                 lockedBy := none
                 lockTimestamp := none })
             s.creditRequests) })

/-- `creditRequestReturn(params)`. -/
def creditRequestReturn (params : CreditRequestReturnParams) (now : Int)
    (s : Store) : Except String Unit × Store :=
  match s.creditRequests.find? (byId params.idCreditRequest) with
  | none => (Except.error "requestNotFound", s)
  | some request =>
    if request.lockedBy ≠ some params.analystId then
      (Except.error "proposalNotLockedByAnalyst", s)
    else if request.status ≠ RequestStatus.EmAnalise then
      (Except.error "invalidStatusForReturn", s)
    else
      (Except.ok (),
       { s with creditRequests :=
           (updateFirst (byId params.idCreditRequest)
             (fun req => { req with
                 status := RequestStatus.AguardandoDocumentacao
                 documentsToCorrect := some params.documentsToCorrect
                 correctionInstructions := some params.correctionInstructions
                 analysisCompletionDate := some now
                 lockStatus := false
                 lockedBy := none
                 lockTimestamp := none })
             s.creditRequests) })

/-- Client record as consumed by the queue (`getClientById` of
`services/client/clientLogic.ts` returns the stored client object; the queue
only reads `fullName` and `cpf`). -/
structure ClientEntity where
  idClient : Int
  fullName : String
  cpf : String
  deriving DecidableEq, Repr

/-- `getClientById(id)`: `clients.find((c) => c.idClient === id)`. -/
def getClientById (clients : List ClientEntity) (id : Int) : Option ClientEntity :=
  clients.find? (fun c => c.idClient == id)

/-- `AnalysisQueueFilters` of `creditRequestTypes.ts`.  Date strings are
modelled as parsed epoch-millisecond instants. -/
structure AnalysisQueueFilters where
  startDate : Option Int
  endDate : Option Int
  minAmount : Option ℚ
  maxAmount : Option ℚ
  searchTerm : Option String
  page : Option Nat
  pageSize : Option Nat
  deriving Repr

/-- `AnalysisQueueItem` of `creditRequestTypes.ts`: the spread `...req` plus
the enrichment fields. -/
structure AnalysisQueueItem where
  request : CreditRequestEntity
  waitTime : Int
  priorityScore : ℚ
  slaIndicator : String
  clientName : String
  clientCpf : String
  deriving DecidableEq, Repr

/-- `AnalysisQueueResponse` of `creditRequestTypes.ts`. -/
structure AnalysisQueueResponse where
  data : List AnalysisQueueItem
  total : Nat
  filteredTotal : Nat
  page : Nat
  pageSize : Nat
  deriving Repr

/-- `String.prototype.includes`: substring containment on the character
lists. -/
def containsSubstr (hay needle : String) : Bool :=
  (List.range (hay.length + 1)).any (fun i => needle.data.isPrefixOf (hay.data.drop i))

/-- Step 1 of `getAnalysisQueue`: keep status `EmAnalise` and drop requests
locked by a different analyst. -/
def queueCandidates (analystId : Int) (s : Store) : List CreditRequestEntity :=
  s.creditRequests.filter (fun req =>
    if req.status ≠ RequestStatus.EmAnalise then false
    else if req.lockStatus = true ∧ req.lockedBy ≠ some analystId then false
    else true)

/-- Step 2 of `getAnalysisQueue`: the optional, AND-combined advanced
filters, applied in source order.  JavaScript truthiness is mirrored: an
amount filter equal to `0` and an empty search term are skipped.  The
`setHours(23,59,59,999)` end-of-day adjustment becomes `+ 86399999` ms. -/
def applyQueueFilters (filters : AnalysisQueueFilters) (clients : List ClientEntity)
    (queue : List CreditRequestEntity) : List CreditRequestEntity :=
  let q1 := match filters.startDate with
    | some start => queue.filter (fun req => start ≤ req.requestDate)
    | none => queue
  let q2 := match filters.endDate with
    | some endDate => q1.filter (fun req => req.requestDate ≤ endDate + 86399999)
    | none => q1
  let q3 := match filters.minAmount with
    | some m => if m = 0 then q2 else q2.filter (fun req => m ≤ req.creditAmount)
    | none => q2
  let q4 := match filters.maxAmount with
    | some m => if m = 0 then q3 else q3.filter (fun req => req.creditAmount ≤ m)
    | none => q3
  match filters.searchTerm with
  | some t =>
      if t = "" then q4 else
      let term := t.toLower
      q4.filter (fun req =>
        let cpf := match getClientById clients req.idClient with
          | some c => c.cpf
          | none => ""
        containsSubstr req.requestNumber.toLower term || containsSubstr cpf term)
  | none => q4

/-- The wait-time computation of `getAnalysisQueue` step 3:
`Math.floor((now.getTime() - requestDate.getTime()) / 60000)`.
`Int.fdiv` is floor division, matching `Math.floor` on a real quotient. -/
def queueWaitTime (submittedAt now : Int) : Int :=
  Int.fdiv (now - submittedAt) 60000

/-- Step 3 of `getAnalysisQueue`: build one `AnalysisQueueItem`. -/
def enrichQueueItem (clients : List ClientEntity) (now : Int)
    (req : CreditRequestEntity) : AnalysisQueueItem :=
  let waitTime := queueWaitTime req.requestDate now
  let client := getClientById clients req.idClient
  { request := req
    waitTime := waitTime
    priorityScore := calculatePriority waitTime req.creditAmount
    slaIndicator := calculateSLA waitTime
    clientName := match client with
      | some c => if c.fullName = "" then "Unknown" else c.fullName
      | none => "Unknown"
    clientCpf := match client with
      | some c => if c.cpf = "" then "Unknown" else c.cpf
      | none => "Unknown" }

/-- The step-4 comparator as a binary Bool relation: priority score
descending, ties broken by submission timestamp ascending. -/
def queueLE (a b : AnalysisQueueItem) : Bool :=
  if a.priorityScore ≠ b.priorityScore then b.priorityScore < a.priorityScore
  else a.request.requestDate ≤ b.request.requestDate

/-- Insert into a sorted list, used to model the comparator sort of step 4. -/
def insertSorted {α : Type} (le : α → α → Bool) (x : α) : List α → List α
  | [] => [x]
  | y :: ys => if le x y then x :: y :: ys else y :: insertSorted le x ys

/-- Stable comparison sort standing in for `Array.prototype.sort`. -/
def sortByLE {α : Type} (le : α → α → Bool) : List α → List α
  | [] => []
  | x :: xs => insertSorted le x (sortByLE le xs)

/-- `getAnalysisQueue(filters, analystId)`.  The client directory and the
clock are explicit arguments. -/
def getAnalysisQueue (filters : AnalysisQueueFilters) (analystId : Int)
    (clients : List ClientEntity) (now : Int) (s : Store) : AnalysisQueueResponse :=
  let queue := queueCandidates analystId s
  let queueFiltered := applyQueueFilters filters clients queue
  let enrichedQueue := queueFiltered.map (enrichQueueItem clients now)
  let sortedQueue := sortByLE queueLE enrichedQueue
  let total := (s.creditRequests.filter
    (fun req => req.status == RequestStatus.EmAnalise)).length
  let filteredTotal := sortedQueue.length
  let page := match filters.page with
    | some p => if p = 0 then 1 else p
    | none => 1
  let pageSize := match filters.pageSize with
    | some p => if p = 0 then 10 else p
    | none => 10
  let start := (page - 1) * pageSize
  { data := (sortedQueue.drop start).take pageSize
    total := total
    filteredTotal := filteredTotal
    page := page
    pageSize := pageSize }

/-! ### Concrete fixtures used by the closed-form theorems -/

/-- A well-formed creation request (owner 1, valid CONSUMO subcategory). -/
def baseParams : CreditRequestCreateRequest :=
  { idClient := 1
    creditAmount := 5000
    purposeCategory := PurposeCategory.CONSUMO
    purposeSubcategory := "Pagamento de dívidas"
    paymentTerm := PaymentTerm.UpTo6Months
    paymentMethod := PaymentMethod.Boleto
    monthlyIncome := 3000
    committedIncome := 1000
    professionalSituation := ProfessionalSituation.CLT
    bankCode := "001"
    branchNumber := "1234"
    accountNumber := "567890" }

/-- A creation request with a non-positive client id, over-committed income
and an unknown subcategory, all at once. -/
def badClientParams : CreditRequestCreateRequest :=
  { baseParams with
    idClient := 0
    committedIncome := 2
    monthlyIncome := 1
    purposeSubcategory := "algo" }

/-- The entity `creditRequestCreate baseParams "20260101" 0` persists. -/
def createdEntity : CreditRequestEntity :=
  { idCreditRequest := 1
    idClient := 1
    requestNumber := "CR-20260101-00001"
    creditAmount := 5000
    purposeCategory := PurposeCategory.CONSUMO
    purposeSubcategory := "Pagamento de dívidas"
    paymentTerm := PaymentTerm.UpTo6Months
    paymentMethod := PaymentMethod.Boleto
    monthlyIncome := 3000
    committedIncome := 1000
    professionalSituation := ProfessionalSituation.CLT
    bankCode := "001"
    branchNumber := "1234"
    accountNumber := "567890"
    requestDate := 0
    status := RequestStatus.AguardandoDocumentacao
    rejectionReason := none
    approvedConditions := none
    documents := []
    correctionInstructions := none
    documentsToCorrect := none
    lockStatus := false
    lockedBy := none
    lockTimestamp := none
    analysisCompletionDate := none }

/-- Store after a single successful creation. -/
def createdStore : Store :=
  (creditRequestCreate baseParams "20260101" 0 Store.empty).2

/-- Store after analyst 7 locked request 1 (status still
`AguardandoDocumentacao`: the lock routine does not check status). -/
def lockedStore : Store :=
  (lockCreditRequest 1 7 5 createdStore).2

/-- The record stored in `lockedStore`: request 1 with analyst 7's lock. -/
def lockedEntity : CreditRequestEntity :=
  { createdEntity with
    lockStatus := true
    lockedBy := some 7
    lockTimestamp := some 5 }

/-- Request 1 in analysis and locked by analyst 7. -/
def entityEmAnalise7 : CreditRequestEntity :=
  { createdEntity with
    status := RequestStatus.EmAnalise
    lockStatus := true
    lockedBy := some 7
    lockTimestamp := some 5 }

/-- Store holding `entityEmAnalise7`. -/
def emAnaliseStore : Store :=
  { creditRequests := [entityEmAnalise7], nextId := 2, requestSequence := 2 }

/-- Request 1 already approved (a terminal status). -/
def entityAprovado : CreditRequestEntity :=
  { createdEntity with status := RequestStatus.Aprovado }

/-- Store holding `entityAprovado`. -/
def aprovadoStore : Store :=
  { creditRequests := [entityAprovado], nextId := 2, requestSequence := 2 }

/-- A request submitted at t = 60000 ms, viewed at t = 0 (clock skew). -/
def skewedEntity : CreditRequestEntity :=
  { createdEntity with status := RequestStatus.EmAnalise, requestDate := 60000 }

/-- Approval parameters: analyst 7 approves request 1 in full. -/
def approveParams7 : CreditRequestApproveParams :=
  { idCreditRequest := 1, analystId := 7, approvedAmount := 5000,
    interestRate := 0, finalTerm := 10 }

/-- Rejection parameters for analyst 7 on request 1. -/
def rejectParams7 : CreditRequestRejectParams :=
  { idCreditRequest := 1, analystId := 7,
    rejectionReason := "Renda insuficiente para o valor solicitado" }

/-- Return-for-correction parameters for analyst 7 on request 1. -/
def returnParams7 : CreditRequestReturnParams :=
  { idCreditRequest := 1, analystId := 7, documentsToCorrect := [3],
    correctionInstructions := "Reenviar comprovante de renda atualizado" }

/-! ### Helper lemmas -/

theorem length_insertSorted {α : Type} (le : α → α → Bool) (x : α) (l : List α) :
    (insertSorted le x l).length = l.length + 1 := by
  induction l with
  | nil => rfl
  | cons y ys ih =>
    by_cases h : le x y = true <;> simp [insertSorted, h, ih]

theorem length_sortByLE {α : Type} (le : α → α → Bool) (l : List α) :
    (sortByLE le l).length = l.length := by
  induction l with
  | nil => rfl
  | cons x xs ih => simp [sortByLE, length_insertSorted, ih]

theorem find?_updateFirst {α : Type} (p : α → Bool) (f : α → α) (l : List α)
    (r : α) (h : l.find? p = some r) (hf : p (f r) = true) :
    (updateFirst p f l).find? p = some (f r) := by
  induction l with
  | nil => simp [List.find?] at h
  | cons x xs ih =>
    by_cases hx : p x = true
    · rw [List.find?_cons_of_pos _ hx] at h
      cases h
      simp [updateFirst, hx, List.find?_cons_of_pos _ hf]
    · have hx2 : p x = false := by simpa using hx
      rw [List.find?_cons_of_neg _ (by simp [hx2])] at h
      have hu : updateFirst p f (x :: xs) = x :: updateFirst p f xs := by
        simp [updateFirst, hx2]
      rw [hu, List.find?_cons_of_neg _ (by simp [hx2])]
      exact ih h

/-! ### C5 — priority score -/

/-- C5 counterexample: the claim asserts the sentinel score of a request
that has waited ≥ 30 minutes is strictly greater than the score of every
request that has waited < 30 minutes regardless of its amount; a fresh
request for 2,000,000 scores 2,000,000, which exceeds the sentinel
1,000,000. -/
theorem calculatePriority_sentinel_not_dominant :
    calculatePriority 30 0 = 1000000 ∧
    calculatePriority 0 2000000 = 2000000 ∧
    ¬ calculatePriority 0 2000000 < calculatePriority 30 0 := by
  refine ⟨rfl, rfl, ?_⟩
  show ¬ (2000000 : ℚ) < 1000000
  norm_num

/-- C5 (amended): `calculatePriority w a` equals `a` when `w < 30` and the
sentinel 1,000,000 when `w ≥ 30`; the sentinel score of a request that has
waited ≥ 30 minutes strictly exceeds the score of any request that has
waited < 30 minutes whose amount is below 1,000,000 (amounts of 1,000,000
or more tie with or beat the sentinel). -/
theorem calculatePriority_spec :
    (∀ (w : Int) (a : ℚ), w < 30 → calculatePriority w a = a) ∧
    (∀ (w : Int) (a : ℚ), 30 ≤ w → calculatePriority w a = 1000000) ∧
    (∀ (w w' : Int) (a a' : ℚ), 30 ≤ w → w' < 30 → a' < 1000000 →
      calculatePriority w' a' < calculatePriority w a) := by
  refine ⟨?_, ?_, ?_⟩
  · intro w a h
    simp [calculatePriority, h]
  · intro w a h
    simp [calculatePriority, not_lt.mpr h]
  · intro w w' a a' hw hw' ha
    simp only [calculatePriority, if_pos hw', if_neg (not_lt.mpr hw)]
    exact ha

/-- C5 witness: the amended theorem at concrete inputs. -/
theorem calculatePriority_spec_witness :
    calculatePriority 0 500 = 500 ∧
    calculatePriority 45 500 = 1000000 ∧
    calculatePriority 0 500 < calculatePriority 45 500 :=
  ⟨calculatePriority_spec.1 0 500 (by decide),
   calculatePriority_spec.2.1 45 500 (by decide),
   calculatePriority_spec.2.2 45 0 500 500 (by decide) (by decide) (by norm_num)⟩

/-! ### C8 — installment formula -/

/-- C8: `calculateInstallment P r n` is `P / n` for `r = 0` and the
fixed-payment amortization `P·i·(1+i)^n / ((1+i)^n − 1)` with `i = r/100`
otherwise; in particular it is exactly 1000 at (10000, 0, 10) and exactly
1100 at (1000, 10, 1). -/
theorem calculateInstallment_spec :
    (∀ (P r : ℚ) (n : Nat), 0 < P → 0 ≤ r → 1 ≤ n →
      (r = 0 → calculateInstallment P r n = P / n) ∧
      (r ≠ 0 → calculateInstallment P r n =
        P * (r / 100) * (1 + r / 100) ^ n / ((1 + r / 100) ^ n - 1))) ∧
    calculateInstallment 10000 0 10 = 1000 ∧
    calculateInstallment 1000 10 1 = 1100 := by
  refine ⟨?_, by norm_num [calculateInstallment], by norm_num [calculateInstallment]⟩
  intro P r n _ _ _
  constructor
  · intro h
    simp [calculateInstallment, h]
  · intro h
    simp [calculateInstallment, h]

/-- C8 witness: the universally quantified part applied at both concrete
instances of the claim. -/
theorem calculateInstallment_spec_witness :
    calculateInstallment 10000 0 10 = 10000 / ((10 : Nat) : ℚ) ∧
    calculateInstallment 1000 10 1 =
      1000 * ((10 : ℚ) / 100) * (1 + (10 : ℚ) / 100) ^ (1 : Nat) /
        ((1 + (10 : ℚ) / 100) ^ (1 : Nat) - 1) :=
  ⟨(calculateInstallment_spec.1 10000 0 10 (by norm_num) (by norm_num) (by norm_num)).1 rfl,
   (calculateInstallment_spec.1 1000 10 1 (by norm_num) (by norm_num) (by norm_num)).2
     (by norm_num)⟩

/-! ### C9 — wait-time computation -/

/-- C9 counterexample: the code computes
`Math.floor((now − submittedAt) / 60000)` with no clamp, so with a
submission timestamp of 60000 ms and `now = 0` the wait time of a queue
item is −1, contradicting "never negative". -/
theorem queueWaitTime_negative_counterexample :
    queueWaitTime 60000 0 = -1 ∧
    (enrichQueueItem [] 0 skewedEntity).waitTime = -1 ∧
    ¬ (0 : Int) ≤ -1 := by
  refine ⟨rfl, rfl, by decide⟩

/-- C9 (amended): the wait time equals `floor((now − submittedAt) / 60000 ms)`
with no clamping: it is non-negative whenever `submittedAt ≤ now`, but
negative whenever `now < submittedAt` (clock skew is not clamped to 0). -/
theorem queueWaitTime_spec :
    (∀ (submittedAt now : Int),
      queueWaitTime submittedAt now = Int.fdiv (now - submittedAt) 60000) ∧
    (∀ (submittedAt now : Int), submittedAt ≤ now →
      0 ≤ queueWaitTime submittedAt now) ∧
    (∀ (submittedAt now : Int), now < submittedAt →
      queueWaitTime submittedAt now < 0) ∧
    (∀ (clients : List ClientEntity) (now : Int) (req : CreditRequestEntity),
      (enrichQueueItem clients now req).waitTime = queueWaitTime req.requestDate now) := by
  refine ⟨fun _ _ => rfl, ?_, ?_, fun _ _ _ => rfl⟩
  · intro submittedAt now h
    unfold queueWaitTime
    rw [Int.fdiv_eq_ediv _ (by norm_num)]
    exact Int.ediv_nonneg (by omega) (by norm_num)
  · intro submittedAt now h
    unfold queueWaitTime
    rw [Int.fdiv_eq_ediv _ (by norm_num)]
    exact Int.ediv_neg' (by omega) (by norm_num)

/-- C9 witness: the amended theorem at concrete instants on both sides of
the skew. -/
theorem queueWaitTime_spec_witness :
    (0 : Int) ≤ queueWaitTime 0 90000 ∧ queueWaitTime 60000 0 < 0 :=
  ⟨queueWaitTime_spec.2.1 0 90000 (by decide),
   queueWaitTime_spec.2.2.1 60000 0 (by decide)⟩

/-! ### C4 — failing transitions leave the store unmodified -/

/-- C4: whenever `creditRequestApprove`, `creditRequestReject` or
`creditRequestReturn` fails (missing request, wrong lock holder, status
other than `EmAnalise`, or approved amount above the requested amount),
the store — and hence every field of every stored request — is returned
completely unmodified. -/
theorem transitions_fail_without_mutation :
    (∀ (params : CreditRequestApproveParams) (now : Int) (s : Store) (e : String),
      (creditRequestApprove params now s).1 = Except.error e →
      (creditRequestApprove params now s).2 = s) ∧
    (∀ (params : CreditRequestRejectParams) (now : Int) (s : Store) (e : String),
      (creditRequestReject params now s).1 = Except.error e →
      (creditRequestReject params now s).2 = s) ∧
    (∀ (params : CreditRequestReturnParams) (now : Int) (s : Store) (e : String),
      (creditRequestReturn params now s).1 = Except.error e →
      (creditRequestReturn params now s).2 = s) := by
  refine ⟨?_, ?_, ?_⟩
  · intro params now s e
    unfold creditRequestApprove
    split
    · exact fun _ => rfl
    · split_ifs <;> intro h <;> first | rfl | simp at h
  · intro params now s e
    unfold creditRequestReject
    split
    · exact fun _ => rfl
    · split_ifs <;> intro h <;> first | rfl | simp at h
  · intro params now s e
    unfold creditRequestReturn
    split
    · exact fun _ => rfl
    · split_ifs <;> intro h <;> first | rfl | simp at h

/-- C4 witness: each of the three transitions fails on a store whose only
request is already `Aprovado` and unlocked, and the store is unchanged. -/
theorem transitions_fail_without_mutation_witness :
    (creditRequestApprove approveParams7 9 aprovadoStore).2 = aprovadoStore ∧
    (creditRequestReject rejectParams7 9 aprovadoStore).2 = aprovadoStore ∧
    (creditRequestReturn returnParams7 9 aprovadoStore).2 = aprovadoStore :=
  ⟨transitions_fail_without_mutation.1 approveParams7 9 aprovadoStore
     "proposalNotLockedByAnalyst" rfl,
   transitions_fail_without_mutation.2.1 rejectParams7 9 aprovadoStore
     "proposalNotLockedByAnalyst" rfl,
   transitions_fail_without_mutation.2.2 returnParams7 9 aprovadoStore
     "proposalNotLockedByAnalyst" rfl⟩

/-! ### C7 — cancellation guards -/

/-- C7: `creditRequestCancel` succeeds and sets the status to `Cancelado`
exactly when the caller owns the request and its status is `Rascunho`,
`AguardandoDocumentacao` or `EmAnalise`; a missing id and a wrong owner both
fail with the identical `requestNotFound` error, and cancellation from
`Aprovado`, `Reprovado`, `Cancelado` or `Efetivada` fails with
`requestCannotBeCancelled`; every failure leaves the store unmodified. -/
theorem creditRequestCancel_spec :
    ∀ (idClient : Int) (idCreditRequest : Nat) (s : Store),
      (s.creditRequests.find? (byId idCreditRequest) = none →
        creditRequestCancel idClient idCreditRequest s =
          (Except.error "requestNotFound", s)) ∧
      (∀ r, s.creditRequests.find? (byId idCreditRequest) = some r →
        r.idClient ≠ idClient →
        creditRequestCancel idClient idCreditRequest s =
          (Except.error "requestNotFound", s)) ∧
      (∀ r, s.creditRequests.find? (byId idCreditRequest) = some r →
        r.idClient = idClient →
        (r.status = RequestStatus.Aprovado ∨ r.status = RequestStatus.Reprovado ∨
         r.status = RequestStatus.Cancelado ∨ r.status = RequestStatus.Efetivada) →
        creditRequestCancel idClient idCreditRequest s =
          (Except.error "requestCannotBeCancelled", s)) ∧
      (∀ r, s.creditRequests.find? (byId idCreditRequest) = some r →
        r.idClient = idClient →
        (r.status = RequestStatus.Rascunho ∨
         r.status = RequestStatus.AguardandoDocumentacao ∨
         r.status = RequestStatus.EmAnalise) →
        (creditRequestCancel idClient idCreditRequest s).1 = Except.ok true ∧
        (creditRequestCancel idClient idCreditRequest s).2.creditRequests.find?
            (byId idCreditRequest) =
          some { r with status := RequestStatus.Cancelado }) := by
  intro idClient idCreditRequest s
  refine ⟨?_, ?_, ?_, ?_⟩
  · intro hfind
    unfold creditRequestCancel
    rw [hfind]
  · intro r hfind hown
    unfold creditRequestCancel
    rw [hfind]
    simp [hown]
  · intro r hfind hown hst
    unfold creditRequestCancel
    rw [hfind]
    have hc : cancellableStatuses.contains r.status = false := by
      rcases hst with h | h | h | h <;> rw [h] <;> rfl
    have hnmem : r.status ∉ cancellableStatuses := by
      rcases hst with h | h | h | h <;> rw [h] <;> decide
    simp [hown, hc, hnmem]
  · intro r hfind hown hst
    subst hown
    have hc : cancellableStatuses.contains r.status = true := by
      rcases hst with h | h | h <;> rw [h] <;> rfl
    have hmem : r.status ∈ cancellableStatuses := by
      rcases hst with h | h | h <;> rw [h] <;> decide
    have h1 : byId idCreditRequest r = true := List.find?_some hfind
    have hbyId : byId idCreditRequest { r with status := RequestStatus.Cancelado } = true := h1
    constructor
    · unfold creditRequestCancel
      rw [hfind]
      simp [hc, hmem]
    · unfold creditRequestCancel
      rw [hfind]
      simp only [ne_eq, not_true_eq_false, if_false, hc, hmem,
        not_false_eq_true, if_true]
      exact find?_updateFirst (byId idCreditRequest)
        (fun req => { req with status := RequestStatus.Cancelado })
        s.creditRequests r hfind hbyId

/-- C7 witness: all four branches at concrete stores — missing id, wrong
owner, already-approved request, and a successful cancellation. -/
theorem creditRequestCancel_spec_witness :
    creditRequestCancel 1 1 Store.empty = (Except.error "requestNotFound", Store.empty) ∧
    creditRequestCancel 2 1 createdStore = (Except.error "requestNotFound", createdStore) ∧
    creditRequestCancel 1 1 aprovadoStore =
      (Except.error "requestCannotBeCancelled", aprovadoStore) ∧
    (creditRequestCancel 1 1 createdStore).1 = Except.ok true :=
  ⟨(creditRequestCancel_spec 1 1 Store.empty).1 rfl,
   (creditRequestCancel_spec 2 1 createdStore).2.1 createdEntity rfl (by decide),
   (creditRequestCancel_spec 1 1 aprovadoStore).2.2.1 entityAprovado rfl rfl
     (Or.inl rfl),
   ((creditRequestCancel_spec 1 1 createdStore).2.2.2 createdEntity rfl rfl
     (Or.inr (Or.inl rfl))).1⟩

/-! ### C10 — cancel mutates only the status field -/

/-- C10: for an owned request in a cancellable status — including one
currently locked by an analyst — `creditRequestCancel` succeeds and rewrites
the stored record to exactly `{ r with status := Cancelado }`: `lockStatus`,
`lockedBy` and `lockTimestamp` (and every other field) are untouched, so a
locked request becomes `Cancelado` still carrying the analyst's lock. -/
theorem creditRequestCancel_frame :
    ∀ (idClient : Int) (idCreditRequest : Nat) (s : Store) (r : CreditRequestEntity),
      s.creditRequests.find? (byId idCreditRequest) = some r →
      r.idClient = idClient →
      (r.status = RequestStatus.Rascunho ∨
       r.status = RequestStatus.AguardandoDocumentacao ∨
       r.status = RequestStatus.EmAnalise) →
      (creditRequestCancel idClient idCreditRequest s).1 = Except.ok true ∧
      (creditRequestCancel idClient idCreditRequest s).2.creditRequests.find?
          (byId idCreditRequest) = some { r with status := RequestStatus.Cancelado } ∧
      ({ r with status := RequestStatus.Cancelado } : CreditRequestEntity).lockStatus
        = r.lockStatus ∧
      ({ r with status := RequestStatus.Cancelado } : CreditRequestEntity).lockedBy
        = r.lockedBy ∧
      ({ r with status := RequestStatus.Cancelado } : CreditRequestEntity).lockTimestamp
        = r.lockTimestamp := by
  intro idClient idCreditRequest s r hfind hown hst
  subst hown
  have hc : cancellableStatuses.contains r.status = true := by
    rcases hst with h | h | h <;> rw [h] <;> rfl
  have hmem : r.status ∈ cancellableStatuses := by
    rcases hst with h | h | h <;> rw [h] <;> decide
  have h1 : byId idCreditRequest r = true := List.find?_some hfind
  have hbyId : byId idCreditRequest { r with status := RequestStatus.Cancelado } = true := h1
  refine ⟨?_, ?_, rfl, rfl, rfl⟩
  · unfold creditRequestCancel
    rw [hfind]
    simp [hc, hmem]
  · unfold creditRequestCancel
    rw [hfind]
    simp only [ne_eq, not_true_eq_false, if_false, hc, hmem,
      not_false_eq_true, if_true]
    exact find?_updateFirst (byId idCreditRequest)
      (fun req => { req with status := RequestStatus.Cancelado })
      s.creditRequests r hfind hbyId

/-- C10 witness: cancelling request 1, locked by analyst 7 and in analysis,
by its owner leaves the analyst's lock fields in place on the now-cancelled
record. -/
theorem creditRequestCancel_frame_witness :
    (creditRequestCancel 1 1 emAnaliseStore).1 = Except.ok true ∧
    (creditRequestCancel 1 1 emAnaliseStore).2.creditRequests.find? (byId 1) =
      some { entityEmAnalise7 with status := RequestStatus.Cancelado } ∧
    ({ entityEmAnalise7 with status := RequestStatus.Cancelado }).lockStatus = true ∧
    ({ entityEmAnalise7 with status := RequestStatus.Cancelado }).lockedBy = some 7 :=
  ⟨(creditRequestCancel_frame 1 1 emAnaliseStore entityEmAnalise7 rfl rfl
      (Or.inr (Or.inr rfl))).1,
   (creditRequestCancel_frame 1 1 emAnaliseStore entityEmAnalise7 rfl rfl
      (Or.inr (Or.inr rfl))).2.1,
   rfl, rfl⟩

/-! ### C1 — creation validation and persistence -/

/-- C1 counterexample: the code checks `idClient <= 0` first, so an input
with a non-positive client id, over-committed income and an invalid
subcategory fails with `clientNotFound` — not with the committed-income
error or the subcategory error the claim requires for every creation
input. -/
theorem creditRequestCreate_counterexample :
    (creditRequestCreate badClientParams "20260101" 0 Store.empty).1 =
      Except.error "clientNotFound" ∧
    badClientParams.committedIncome > badClientParams.monthlyIncome ∧
    validateSubcategory badClientParams.purposeCategory
      badClientParams.purposeSubcategory = false ∧
    "clientNotFound" ≠ "committedIncomeExceedsMonthlyIncome" ∧
    "clientNotFound" ≠ "purposeSubcategoryInvalid" :=
  ⟨rfl, by decide, by decide, by decide, by decide⟩

/-- C1 (amended): for creation inputs that pass the client-existence check
(`idClient > 0`), `creditRequestCreate` fails with the committed-income
error when `committedIncome > monthlyIncome`, fails with the subcategory
error when `committedIncome ≤ monthlyIncome` but the subcategory is not in
the fixed list for its category (persisting no record in either case), and
for valid input persists exactly one new record whose status is
`AguardandoDocumentacao`, whose id is the `nextId` counter (hence fresh
when every stored id is below the counter), and whose request number comes
from the `requestSequence` counter; both counters advance by one. -/
theorem creditRequestCreate_spec :
    ∀ (params : CreditRequestCreateRequest) (dateStr : String) (now : Int) (s : Store),
      0 < params.idClient →
      ((params.committedIncome > params.monthlyIncome →
        creditRequestCreate params dateStr now s =
          (Except.error "committedIncomeExceedsMonthlyIncome", s)) ∧
       (params.committedIncome ≤ params.monthlyIncome →
        validateSubcategory params.purposeCategory params.purposeSubcategory = false →
        creditRequestCreate params dateStr now s =
          (Except.error "purposeSubcategoryInvalid", s)) ∧
       (params.committedIncome ≤ params.monthlyIncome →
        validateSubcategory params.purposeCategory params.purposeSubcategory = true →
        ∃ entity : CreditRequestEntity,
          creditRequestCreate params dateStr now s =
            (Except.ok { idCreditRequest := s.nextId,
                         requestNumber := generateRequestNumber dateStr s.requestSequence },
             { creditRequests := s.creditRequests ++ [entity]
               nextId := s.nextId + 1
               requestSequence := s.requestSequence + 1 }) ∧
          entity.status = RequestStatus.AguardandoDocumentacao ∧
          entity.idCreditRequest = s.nextId ∧
          entity.requestNumber = generateRequestNumber dateStr s.requestSequence ∧
          ((∀ r ∈ s.creditRequests, r.idCreditRequest < s.nextId) →
            ∀ r ∈ s.creditRequests, r.idCreditRequest ≠ entity.idCreditRequest))) := by
  intro params dateStr now s hclient
  have hnc : ¬ params.idClient ≤ 0 := by omega
  refine ⟨?_, ?_, ?_⟩
  · intro hinc
    unfold creditRequestCreate
    rw [if_neg hnc, if_pos hinc]
  · intro hinc hsub
    unfold creditRequestCreate
    rw [if_neg hnc, if_neg (not_lt.mpr hinc), if_pos (by simp [hsub])]
  · intro hinc hsub
    unfold creditRequestCreate
    rw [if_neg hnc, if_neg (not_lt.mpr hinc), if_neg (by simp [hsub])]
    refine ⟨_, rfl, rfl, rfl, rfl, ?_⟩
    intro hlt r hr
    have h2 := hlt r hr
    show r.idCreditRequest ≠ s.nextId
    omega

/-- C1 witness: both failure branches and the success branch of the amended
theorem at concrete inputs. -/
theorem creditRequestCreate_spec_witness :
    creditRequestCreate { baseParams with committedIncome := 4000 } "20260101" 0 Store.empty =
      (Except.error "committedIncomeExceedsMonthlyIncome", Store.empty) ∧
    creditRequestCreate { baseParams with purposeSubcategory := "algo" } "20260101" 0 Store.empty =
      (Except.error "purposeSubcategoryInvalid", Store.empty) ∧
    (∃ entity : CreditRequestEntity,
      creditRequestCreate baseParams "20260101" 0 Store.empty =
        (Except.ok { idCreditRequest := Store.empty.nextId,
                     requestNumber := generateRequestNumber "20260101" Store.empty.requestSequence },
         { creditRequests := Store.empty.creditRequests ++ [entity]
           nextId := Store.empty.nextId + 1
           requestSequence := Store.empty.requestSequence + 1 }) ∧
      entity.status = RequestStatus.AguardandoDocumentacao) := by
  refine ⟨?_, ?_, ?_⟩
  · exact (creditRequestCreate_spec _ "20260101" 0 Store.empty (by decide)).1 (by decide)
  · exact (creditRequestCreate_spec _ "20260101" 0 Store.empty (by decide)).2.1
      (by decide) (by decide)
  · obtain ⟨entity, heq, hstatus, -, -, -⟩ :=
      (creditRequestCreate_spec baseParams "20260101" 0 Store.empty (by decide)).2.2
        (by decide) (by decide)
    exact ⟨entity, heq, hstatus⟩

/-! ### C2 — approval guards and success effects -/

/-- C2 counterexample: the status guard has its own error.  Request 1 is
locked by analyst 7 but still `AguardandoDocumentacao` (the lock routine
does not check status); analyst 7's approval then fails with
`invalidStatusForApproval`, not with the `proposalNotLockedByAnalyst`
error the claim assigns to every non-(EmAnalise ∧ holder) state. -/
theorem creditRequestApprove_counterexample :
    lockedStore.creditRequests.find? (byId 1) = some lockedEntity ∧
    lockedEntity.lockedBy = some 7 ∧
    lockedEntity.status ≠ RequestStatus.EmAnalise ∧
    (creditRequestApprove { idCreditRequest := 1, analystId := 7, approvedAmount := 100, interestRate := 0, finalTerm := 1 } 9 lockedStore).1 =
      Except.error "invalidStatusForApproval" ∧
    "invalidStatusForApproval" ≠ "proposalNotLockedByAnalyst" :=
  ⟨by decide, rfl, by decide, rfl, by decide⟩

/-- C2 (amended): `creditRequestApprove` succeeds only when the request's
status is `EmAnalise` and its lock holder equals the calling analyst —
failing with the not-locked-by-analyst error when the holder differs, and
with the invalid-status error when the holder matches but the status is not
`EmAnalise` — and only when `approvedAmount ≤` the requested `creditAmount`
(otherwise the exceeds-requested error); on success it sets status to
`Aprovado`, stores the approved conditions including the computed
installment, stamps the completion time, and clears all three lock
fields.  Every failure leaves the store unchanged. -/
theorem creditRequestApprove_spec :
    ∀ (params : CreditRequestApproveParams) (now : Int) (s : Store)
      (r : CreditRequestEntity),
      s.creditRequests.find? (byId params.idCreditRequest) = some r →
      ((r.lockedBy ≠ some params.analystId →
        creditRequestApprove params now s =
          (Except.error "proposalNotLockedByAnalyst", s)) ∧
       (r.lockedBy = some params.analystId → r.status ≠ RequestStatus.EmAnalise →
        creditRequestApprove params now s =
          (Except.error "invalidStatusForApproval", s)) ∧
       (r.lockedBy = some params.analystId → r.status = RequestStatus.EmAnalise →
        params.approvedAmount > r.creditAmount →
        creditRequestApprove params now s =
          (Except.error "approvedAmountExceedsRequested", s)) ∧
       (r.lockedBy = some params.analystId → r.status = RequestStatus.EmAnalise →
        params.approvedAmount ≤ r.creditAmount →
        (creditRequestApprove params now s).1 = Except.ok () ∧
        (creditRequestApprove params now s).2.creditRequests.find?
            (byId params.idCreditRequest) =
          some { r with
            status := RequestStatus.Aprovado
            approvedConditions := some
              { approvedAmount := params.approvedAmount
                interestRate := params.interestRate
                finalTerm := params.finalTerm
                installmentValue := calculateInstallment params.approvedAmount
                  params.interestRate params.finalTerm }
            analysisCompletionDate := some now
            lockStatus := false
            lockedBy := none
            lockTimestamp := none })) := by
  intro params now s r hfind
  refine ⟨?_, ?_, ?_, ?_⟩
  · intro hlock
    unfold creditRequestApprove
    rw [hfind]
    simp [hlock]
  · intro hlock hstatus
    unfold creditRequestApprove
    rw [hfind]
    simp [hlock, hstatus]
  · intro hlock hstatus hamt
    unfold creditRequestApprove
    rw [hfind]
    simp [hlock, hstatus, hamt]
  · intro hlock hstatus hamt
    have h1 : byId params.idCreditRequest r = true := List.find?_some hfind
    have hbyId : byId params.idCreditRequest { r with
        status := RequestStatus.Aprovado
        approvedConditions := some
          { approvedAmount := params.approvedAmount
            interestRate := params.interestRate
            finalTerm := params.finalTerm
            installmentValue := calculateInstallment params.approvedAmount
              params.interestRate params.finalTerm }
        analysisCompletionDate := some now
        lockStatus := false
        lockedBy := none
        lockTimestamp := none } = true := h1
    constructor
    · unfold creditRequestApprove
      rw [hfind]
      simp [hlock, hstatus, not_lt.mpr hamt]
    · unfold creditRequestApprove
      rw [hfind]
      simp only [hlock, hstatus, ne_eq, not_true_eq_false, if_false,
        not_lt.mpr hamt, not_false_eq_true, if_true]
      exact find?_updateFirst (byId params.idCreditRequest)
        (fun req => { req with
          status := RequestStatus.Aprovado
          approvedConditions := some
            { approvedAmount := params.approvedAmount
              interestRate := params.interestRate
              finalTerm := params.finalTerm
              installmentValue := calculateInstallment params.approvedAmount
                params.interestRate params.finalTerm }
          analysisCompletionDate := some now
          lockStatus := false
          lockedBy := none
          lockTimestamp := none })
        s.creditRequests r hfind hbyId

/-- C2 witness: on a store whose request 1 is `EmAnalise` and locked by
analyst 7 — analyst 9 is refused with the not-locked error, and analyst 7's
full-amount approval succeeds, stores the conditions and installment,
stamps the completion time and clears the lock fields. -/
theorem creditRequestApprove_spec_witness :
    creditRequestApprove { idCreditRequest := 1, analystId := 9, approvedAmount := 100, interestRate := 0, finalTerm := 1 } 9 emAnaliseStore =
      (Except.error "proposalNotLockedByAnalyst", emAnaliseStore) ∧
    (creditRequestApprove approveParams7 9 emAnaliseStore).1 = Except.ok () ∧
    (creditRequestApprove approveParams7 9 emAnaliseStore).2.creditRequests.find?
        (byId 1) =
      some { entityEmAnalise7 with
        status := RequestStatus.Aprovado
        approvedConditions := some
          { approvedAmount := 5000
            interestRate := 0
            finalTerm := 10
            installmentValue := calculateInstallment 5000 0 10 }
        analysisCompletionDate := some 9
        lockStatus := false
        lockedBy := none
        lockTimestamp := none } := by
  refine ⟨?_, ?_, ?_⟩
  · exact (creditRequestApprove_spec _ 9 emAnaliseStore entityEmAnalise7 (by decide)).1
      (by decide)
  · exact ((creditRequestApprove_spec approveParams7 9 emAnaliseStore entityEmAnalise7
      (by decide)).2.2.2 rfl rfl (by decide)).1
  · exact ((creditRequestApprove_spec approveParams7 9 emAnaliseStore entityEmAnalise7
      (by decide)).2.2.2 rfl rfl (by decide)).2

/-! ### C3 — lock acquisition and mutual exclusion -/

/-- C3: `lockCreditRequest` on an unlocked request succeeds and stamps the
holder and timestamp; re-locking by the analyst already holding the lock
succeeds and refreshes the timestamp; and acquiring for analyst A and then
analyst B (any distinct pair, hence either order) on an initially unlocked
record yields exactly one success and one `proposalAlreadyLocked` failure,
the loser leaving the store — in particular the lock fields — unchanged. -/
theorem lockCreditRequest_spec :
    ∀ (idCreditRequest : Nat) (A B : Int) (now now2 : Int) (s : Store)
      (r : CreditRequestEntity),
      s.creditRequests.find? (byId idCreditRequest) = some r →
      ((r.lockStatus = false →
        (lockCreditRequest idCreditRequest A now s).1 = Except.ok () ∧
        (lockCreditRequest idCreditRequest A now s).2.creditRequests.find?
            (byId idCreditRequest) =
          some { r with lockStatus := true, lockedBy := some A, lockTimestamp := some now }) ∧
       (r.lockStatus = true → r.lockedBy = some A →
        (lockCreditRequest idCreditRequest A now s).1 = Except.ok () ∧
        (lockCreditRequest idCreditRequest A now s).2.creditRequests.find?
            (byId idCreditRequest) =
          some { r with lockStatus := true, lockedBy := some A, lockTimestamp := some now }) ∧
       (A ≠ B → r.lockStatus = false →
        (lockCreditRequest idCreditRequest A now s).1 = Except.ok () ∧
        (lockCreditRequest idCreditRequest B now2
            (lockCreditRequest idCreditRequest A now s).2).1 =
          Except.error "proposalAlreadyLocked" ∧
        (lockCreditRequest idCreditRequest B now2
            (lockCreditRequest idCreditRequest A now s).2).2 =
          (lockCreditRequest idCreditRequest A now s).2)) := by
  intro idCreditRequest A B now now2 s r hfind
  have h1 : byId idCreditRequest r = true := List.find?_some hfind
  have hbyId : byId idCreditRequest
      { r with lockStatus := true, lockedBy := some A, lockTimestamp := some now } = true := h1
  have hgrant : ∀ (hcond : ¬ (r.lockStatus = true ∧ r.lockedBy ≠ some A)),
      lockCreditRequest idCreditRequest A now s =
        (Except.ok (), { s with creditRequests :=
          (updateFirst (byId idCreditRequest)
            (fun req => { req with
                lockStatus := true
                lockedBy := some A
                lockTimestamp := some now })
            s.creditRequests) }) := by
    intro hcond
    unfold lockCreditRequest
    rw [hfind]
    simp [hcond]
  have hfound : ∀ (hcond : ¬ (r.lockStatus = true ∧ r.lockedBy ≠ some A)),
      (lockCreditRequest idCreditRequest A now s).2.creditRequests.find?
          (byId idCreditRequest) =
        some { r with lockStatus := true, lockedBy := some A, lockTimestamp := some now } := by
    intro hcond
    rw [hgrant hcond]
    exact find?_updateFirst (byId idCreditRequest)
      (fun req => { req with
          lockStatus := true
          lockedBy := some A
          lockTimestamp := some now })
      s.creditRequests r hfind hbyId
  refine ⟨?_, ?_, ?_⟩
  · intro hunlock
    have hcond : ¬ (r.lockStatus = true ∧ r.lockedBy ≠ some A) := by simp [hunlock]
    exact ⟨by rw [hgrant hcond], hfound hcond⟩
  · intro hlock hby
    have hcond : ¬ (r.lockStatus = true ∧ r.lockedBy ≠ some A) := by simp [hby]
    exact ⟨by rw [hgrant hcond], hfound hcond⟩
  · intro hAB hunlock
    have hcond : ¬ (r.lockStatus = true ∧ r.lockedBy ≠ some A) := by simp [hunlock]
    have hfind2 := hfound hcond
    have hlockedfail : ∀ (s2 : Store) (r2 : CreditRequestEntity),
        s2.creditRequests.find? (byId idCreditRequest) = some r2 →
        r2.lockStatus = true → r2.lockedBy = some A →
        lockCreditRequest idCreditRequest B now2 s2 =
          (Except.error "proposalAlreadyLocked", s2) := by
      intro s2 r2 hf hl hb
      unfold lockCreditRequest
      rw [hf]
      simp [hl, hb, Option.some.injEq, hAB]
    have hsecond := hlockedfail (lockCreditRequest idCreditRequest A now s).2
      { r with lockStatus := true, lockedBy := some A, lockTimestamp := some now }
      hfind2 rfl rfl
    exact ⟨by rw [hgrant hcond], by rw [hsecond], by rw [hsecond]⟩

/-- C3 witness: analyst 7 locks the unlocked request 1, re-locks it
refreshing the timestamp, and after 7's lock analyst 9's attempt fails with
the conflict error leaving the store unchanged. -/
theorem lockCreditRequest_spec_witness :
    (lockCreditRequest 1 7 5 createdStore).1 = Except.ok () ∧
    (lockCreditRequest 1 7 5 createdStore).2.creditRequests.find? (byId 1) =
      some { createdEntity with lockStatus := true, lockedBy := some 7, lockTimestamp := some 5 } ∧
    (lockCreditRequest 1 7 11 lockedStore).2.creditRequests.find? (byId 1) =
      some { lockedEntity with lockStatus := true, lockedBy := some 7, lockTimestamp := some 11 } ∧
    (lockCreditRequest 1 9 6 (lockCreditRequest 1 7 5 createdStore).2).1 =
      Except.error "proposalAlreadyLocked" ∧
    (lockCreditRequest 1 9 6 (lockCreditRequest 1 7 5 createdStore).2).2 =
      (lockCreditRequest 1 7 5 createdStore).2 := by
  have hpart := lockCreditRequest_spec 1 7 9 5 6 createdStore createdEntity (by decide)
  have hre := lockCreditRequest_spec 1 7 9 11 6 lockedStore lockedEntity (by decide)
  refine ⟨(hpart.1 rfl).1, (hpart.1 rfl).2, (hre.2.1 rfl rfl).2, ?_, ?_⟩
  · exact (hpart.2.2 (by decide) rfl).2.1
  · exact (hpart.2.2 (by decide) rfl).2.2

/-! ### C6 — analysis queue selection and counts -/

/-- C6: a request is in the candidate set of `getAnalysisQueue` iff it is a
stored request whose status is `EmAnalise` and which is either unlocked or
locked by the calling analyst (requests locked by a different analyst are
excluded entirely); the returned `total` counts all `EmAnalise` requests in
the store irrespective of lock state and filters, and the returned
`filteredTotal` counts the candidates remaining after all filters. -/
theorem getAnalysisQueue_spec :
    ∀ (filters : AnalysisQueueFilters) (analystId : Int) (clients : List ClientEntity)
      (now : Int) (s : Store),
      (∀ r : CreditRequestEntity,
        r ∈ queueCandidates analystId s ↔
          r ∈ s.creditRequests ∧ r.status = RequestStatus.EmAnalise ∧
            (r.lockStatus = false ∨ r.lockedBy = some analystId)) ∧
      (getAnalysisQueue filters analystId clients now s).total =
        s.creditRequests.countP (fun r => r.status == RequestStatus.EmAnalise) ∧
      (getAnalysisQueue filters analystId clients now s).filteredTotal =
        (applyQueueFilters filters clients (queueCandidates analystId s)).length := by
  intro filters analystId clients now s
  have hpred : ∀ req : CreditRequestEntity,
      ((if req.status ≠ RequestStatus.EmAnalise then false
        else if req.lockStatus = true ∧ req.lockedBy ≠ some analystId then false
        else true) = true) ↔
      (req.status = RequestStatus.EmAnalise ∧
        (req.lockStatus = false ∨ req.lockedBy = some analystId)) := by
    intro req
    by_cases h1 : req.status = RequestStatus.EmAnalise
    · cases hb : req.lockStatus
      · simp [h1, hb]
      · by_cases h3 : req.lockedBy = some analystId
        · simp [h1, hb, h3]
        · simp [h1, hb, h3]
    · simp [h1]
  refine ⟨?_, ?_, ?_⟩
  · intro r
    unfold queueCandidates
    rw [List.mem_filter]
    exact and_congr_right fun _ => hpred r
  · simp only [getAnalysisQueue]
    rw [List.countP_eq_length_filter]
  · simp only [getAnalysisQueue]
    rw [length_sortByLE, List.length_map]

end CreditSystem
